import Mathlib

/-!
Verification of the Snake game engine in
`src/observer-pattern/backend/game.py`: its state model, tick transition,
direction handling, observer registry, notification fanout, persistence log
and startup recovery, shallowly embedded as pure Lean functions.

Randomness (`_generate_fruit`) is modelled by passing the freshly generated
fruit position as an explicit argument to `tickState`.  Python exceptions
raised by observers are modelled as `Except.error` values which the
notification loop catches (the `try`/`except` in `_notify_observers`),
and exceptions raised while decoding a persisted row are modelled by the
`Except` monad in `rowToState`/`loadOrCreateState`.
-/

namespace SnakeGame

/-- The four compass directions (`Direction` enum in game.py). -/
inductive Direction where
  | UP
  | DOWN
  | LEFT
  | RIGHT
deriving DecidableEq, Repr

/-- A grid coordinate (`Position` dataclass); `__eq__` compares both fields,
so structural equality is the right embedding. -/
structure Position where
  x : Int
  y : Int
deriving DecidableEq, Repr

instance : Inhabited Position := ⟨⟨0, 0⟩⟩

/-- Snapshot of the game (`GameState` dataclass). -/
structure GameState where
  snake : List Position
  fruit : Position
  score : Int
  game_over : Bool
  direction : Direction
  high_score : Int
deriving DecidableEq, Repr

/-- Grid width, `SnakeGame.GRID_WIDTH`. -/
def GRID_WIDTH : Int := 20

/-- Grid height, `SnakeGame.GRID_HEIGHT`. -/
def GRID_HEIGHT : Int := 20

/-- The `opposite` dictionary in `SnakeGame.set_direction`. -/
def opposite : Direction → Direction
  | Direction.UP => Direction.DOWN
  | Direction.DOWN => Direction.UP
  | Direction.LEFT => Direction.RIGHT
  | Direction.RIGHT => Direction.LEFT

/-- Unit vector of a direction, `SnakeGame._get_direction_vector`. -/
def getDirectionVector : Direction → Int × Int
  | Direction.UP => (0, -1)
  | Direction.DOWN => (0, 1)
  | Direction.LEFT => (-1, 0)
  | Direction.RIGHT => (1, 0)

/-- The new head computed at the top of `SnakeGame.tick`:
`snake[0]` plus the unit vector of the current direction. -/
def newHead (s : GameState) : Position :=
  let v := getDirectionVector s.direction
  { x := s.snake.headI.x + v.1, y := s.snake.headI.y + v.2 }

/-- The wall-collision test in `SnakeGame.tick`. -/
def outOfBounds (p : Position) : Prop :=
  p.x < 0 ∨ GRID_WIDTH ≤ p.x ∨ p.y < 0 ∨ GRID_HEIGHT ≤ p.y

instance (p : Position) : Decidable (outOfBounds p) := by
  unfold outOfBounds
  exact inferInstance

/-- State part of `SnakeGame.set_direction`: reject the change when the
current direction is the opposite of the requested one. -/
def setDirectionState (d : Direction) (s : GameState) : GameState :=
  if s.direction ≠ opposite d then { s with direction := d } else s

/-- State part of `SnakeGame.tick`.  `newFruit` stands for the random
position produced by `_generate_fruit` when the fruit is eaten. -/
def tickState (newFruit : Position) (s : GameState) : GameState :=
  if s.game_over then s
  else
    let nh := newHead s
    if outOfBounds nh then
      { s with game_over := true,
               high_score := if s.score > s.high_score then s.score else s.high_score }
    else if nh ∈ s.snake then
      { s with game_over := true,
               high_score := if s.score > s.high_score then s.score else s.high_score }
    else
      let grown := nh :: s.snake
      if nh = s.fruit then
        { s with snake := grown, score := s.score + 10, fruit := newFruit }
      else
        { s with snake := grown.dropLast }

/-- The fixed starting state built in `_load_or_create_state` and
`reset_game`, parameterized by the carried-over high score. -/
def freshState (high : Int) : GameState :=
  { snake := [⟨10, 10⟩, ⟨9, 10⟩, ⟨8, 10⟩]
    fruit := ⟨15, 15⟩
    score := 0
    game_over := false
    direction := Direction.RIGHT
    high_score := high }

/-- State part of `SnakeGame.reset_game`: a fresh start keeping the
current high score. -/
def resetState (s : GameState) : GameState :=
  freshState s.high_score

/-- An observer callback.  Python deduplicates by object equality; here each
observer carries an identity and a flag saying whether its call raises. -/
structure Obs where
  oid : Nat
  fails : Bool
deriving DecidableEq, Repr

/-- Calling one observer: `observer(self.state)` either returns or raises. -/
def callObserver (o : Obs) (s : GameState) : Except String Unit :=
  if o.fails then Except.error "observer failure" else Except.ok ()

/-- Notification loop `SnakeGame._notify_observers`: call every observer in order with the
current state; a raising observer is caught and logged, and the loop
continues.  Returns the list of calls made (observer, state handed to it)
and the log of caught errors. -/
def notifyObservers : List Obs → GameState → List (Obs × GameState) × List String
  | [], _ => ([], [])
  | o :: rest, s =>
    let tail := notifyObservers rest s
    match callObserver o s with
    | Except.ok _ => ((o, s) :: tail.1, tail.2)
    | Except.error e => ((o, s) :: tail.1, ("Error notifying observer: " ++ e) :: tail.2)

/-- Registration `SnakeGame.subscribe`: append unless already registered. -/
def subscribe (observers : List Obs) (o : Obs) : List Obs :=
  if o ∈ observers then observers else observers ++ [o]

/-- Removal `SnakeGame.unsubscribe`: `list.remove` of the first matching observer,
guarded by a membership test. -/
def unsubscribe (observers : List Obs) (o : Obs) : List Obs :=
  if o ∈ observers then observers.erase o else observers

/-- The engine: live state, observer registry, and the append-only
snapshot log of `GameDatabase` (last element = latest row). -/
structure Engine where
  state : GameState
  observers : List Obs
  db : List GameState
deriving Repr

/-- Persistence `GameDatabase.save_state`: append a snapshot row. -/
def saveState (db : List GameState) (s : GameState) : List GameState :=
  db ++ [s]

/-- Engine-level `SnakeGame.tick`: advance the state, persist the new
snapshot, then notify observers with it.  A terminal state is a no-op:
no save and no notification. -/
def tickE (newFruit : Position) (e : Engine) :
    Engine × List (Obs × GameState) × List String :=
  if e.state.game_over then (e, [], [])
  else
    let s1 := tickState newFruit e.state
    let n := notifyObservers e.observers s1
    ({ e with state := s1, db := saveState e.db s1 }, n.1, n.2)

/-- Engine-level `SnakeGame.set_direction`: mutates the direction only;
the source neither saves to the database nor notifies observers here. -/
def setDirectionE (d : Direction) (e : Engine) :
    Engine × List (Obs × GameState) × List String :=
  ({ e with state := setDirectionState d e.state }, [], [])

/-- Engine-level `SnakeGame.reset_game`: replace the state by a fresh one
keeping the high score, persist it, notify observers. -/
def resetE (e : Engine) : Engine × List (Obs × GameState) × List String :=
  let s1 := resetState e.state
  let n := notifyObservers e.observers s1
  ({ e with state := s1, db := saveState e.db s1 }, n.1, n.2)

/-- A persisted row as `GameDatabase.get_latest_state` reads it back:
snake and fruit already JSON-decoded, `game_over` stored as an integer,
`direction` still the raw string which `Direction(row[4])` must accept. -/
structure Row where
  snake : List Position
  fruit : Position
  score : Int
  game_over : Int
  direction : String
  high_score : Int
deriving DecidableEq, Repr

/-- Enum decoding `Direction(value)`: raises `ValueError` on an unknown string. -/
def parseDirection (v : String) : Except String Direction :=
  if v = "UP" then Except.ok Direction.UP
  else if v = "DOWN" then Except.ok Direction.DOWN
  else if v = "LEFT" then Except.ok Direction.LEFT
  else if v = "RIGHT" then Except.ok Direction.RIGHT
  else Except.error "invalid direction value"

/-- Decoding one row into a `GameState` (`bool(row[3])` maps any nonzero
integer to true); a bad direction string raises. -/
def rowToState (r : Row) : Except String GameState := do
  let d ← parseDirection r.direction
  Except.ok { snake := r.snake, fruit := r.fruit, score := r.score,
              game_over := r.game_over != 0, direction := d,
              high_score := r.high_score }

/-- Loading `GameDatabase.get_latest_state`: `none` when the table is empty,
otherwise decode the latest row (errors propagate). -/
def getLatestState : Option Row → Except String (Option GameState)
  | none => Except.ok none
  | some r => do
    let s ← rowToState r
    Except.ok (some s)

/-- Startup recovery `SnakeGame._load_or_create_state`: resume a non-terminal snapshot,
otherwise start fresh carrying the stored high score (0 when the store is
empty).  A decoding failure propagates out of the constructor. -/
def loadOrCreateState (row : Option Row) : Except String GameState := do
  let latest ← getLatestState row
  match latest with
  | some st =>
    if st.game_over = false then Except.ok st
    else Except.ok (freshState st.high_score)
  | none => Except.ok (freshState 0)

/-- States reachable from a fresh start by the three mutating engine
operations, with the generated fruit of each tick arbitrary. -/
inductive Reachable : GameState → Prop where
  | init (h : Int) : Reachable (freshState h)
  | tick (f : Position) (s : GameState) : Reachable s → Reachable (tickState f s)
  | setDir (d : Direction) (s : GameState) : Reachable s → Reachable (setDirectionState d s)
  | reset (s : GameState) : Reachable s → Reachable (resetState s)

/-- An observer with its failure flag cleared: how the same registry would
look if no observer failed. -/
def clearFails (o : Obs) : Obs := { o with fails := false }

/-- UP and DOWN are the vertical directions. -/
def isVertical : Direction → Bool
  | Direction.UP => true
  | Direction.DOWN => true
  | Direction.LEFT => false
  | Direction.RIGHT => false

/-- Two directions are perpendicular when exactly one of them is vertical. -/
def perpendicular (a b : Direction) : Prop :=
  isVertical a ≠ isVertical b

instance (a b : Direction) : Decidable (perpendicular a b) := by
  unfold perpendicular
  exact inferInstance

/-- One tick with the generated fruit fixed at the origin (used to build
concrete reachable states). -/
def tick0 (s : GameState) : GameState := tickState ⟨0, 0⟩ s

/-- The state after nine ticks from a fresh start: head at (19, 10),
still running, one cell away from the right wall. -/
def state9 : GameState :=
  tick0 (tick0 (tick0 (tick0 (tick0 (tick0 (tick0 (tick0 (tick0 (freshState 0)))))))))

/-- The state after ten ticks from a fresh start: the head would move to
(20, 10), so the game is over. -/
def state10 : GameState := tick0 state9

/-- A running state whose fruit sits directly in front of the head. -/
def sEat : GameState := { freshState 0 with fruit := ⟨11, 10⟩ }

/-- A fresh engine with a single observer, used to exercise
set_direction at the engine level. -/
def engC1 : Engine :=
  { state := freshState 0, observers := [⟨1, false⟩], db := [] }

/-- A fresh engine with two distinct observers, the second of which fails
when notified. -/
def engC9 : Engine :=
  { state := freshState 0, observers := [⟨1, false⟩, ⟨2, true⟩], db := [] }

/-- A well-formed persisted row describing a running game. -/
def goodRow : Row :=
  { snake := [⟨5, 5⟩, ⟨4, 5⟩, ⟨3, 5⟩], fruit := ⟨2, 2⟩, score := 10,
    game_over := 0, direction := "UP", high_score := 30 }

/-- The state `goodRow` decodes to. -/
def goodState : GameState :=
  { snake := [⟨5, 5⟩, ⟨4, 5⟩, ⟨3, 5⟩], fruit := ⟨2, 2⟩, score := 10,
    game_over := false, direction := Direction.UP, high_score := 30 }

/-- A well-formed persisted row describing a finished game. -/
def termRow : Row :=
  { snake := [⟨5, 5⟩], fruit := ⟨2, 2⟩, score := 40,
    game_over := 1, direction := "DOWN", high_score := 40 }

/-- The state `termRow` decodes to. -/
def termState : GameState :=
  { snake := [⟨5, 5⟩], fruit := ⟨2, 2⟩, score := 40,
    game_over := true, direction := Direction.DOWN, high_score := 40 }

/-- A row whose direction column holds a string `Direction(...)` rejects. -/
def corruptRow : Row :=
  { snake := [⟨10, 10⟩], fruit := ⟨15, 15⟩, score := 0,
    game_over := 0, direction := "DIAGONAL", high_score := 7 }

/- Theorems. -/

/-- The calls made by one notification round: every registered observer, in
registration order, each handed the same state, whether or not any
observer fails. -/
theorem notifyObservers_calls (obs : List Obs) (s : GameState) :
    (notifyObservers obs s).1 = obs.map (fun o => (o, s)) := by
  induction obs with
  | nil => rfl
  | cons o rest ih =>
    cases ho : o.fails <;>
      simp [notifyObservers, callObserver, ho, ih]

/-- Claim C2: from a running state, one tick ends the game exactly when the
new head (current head plus the unit vector of the current direction) is
outside the 20 by 20 grid or coincides with a current snake segment
(the tail segment included, since the collision test precedes the tail
removal). -/
theorem claim_C2 (s : GameState) (f : Position) (hrun : s.game_over = false)
    (hne : s.snake ≠ []) :
    (tickState f s).game_over = true ↔
      outOfBounds (newHead s) ∨ newHead s ∈ s.snake := by
  by_cases h1 : outOfBounds (newHead s)
  · simp [tickState, hrun, h1]
  · by_cases h2 : newHead s ∈ s.snake
    · simp [tickState, hrun, h1, h2]
    · by_cases h3 : newHead s = s.fruit
      · rw [h3] at h1 h2
        simp [tickState, hrun, h1, h2, h3]
      · simp [tickState, hrun, h1, h2, h3]

/-- Witness for C2 at the fresh starting state. -/
theorem claim_C2_witness :
    ((tickState ⟨0, 0⟩ (freshState 0)).game_over = true ↔
      outOfBounds (newHead (freshState 0)) ∨
        newHead (freshState 0) ∈ (freshState 0).snake) :=
  claim_C2 (freshState 0) ⟨0, 0⟩ (by decide) (by decide)

/-- Claim C3: from a running state whose tick does not end the game, eating
the fruit (new head equals fruit) grows the snake by exactly one segment,
adds exactly 10 to the score and installs the newly generated fruit; not
eating leaves length and score unchanged. -/
theorem claim_C3 (s : GameState) (f : Position) (hrun : s.game_over = false)
    (hsurv : (tickState f s).game_over = false) :
    (newHead s = s.fruit →
      (tickState f s).snake.length = s.snake.length + 1 ∧
      (tickState f s).score = s.score + 10 ∧
      (tickState f s).fruit = f) ∧
    (newHead s ≠ s.fruit →
      (tickState f s).snake.length = s.snake.length ∧
      (tickState f s).score = s.score) := by
  by_cases h1 : outOfBounds (newHead s)
  · simp [tickState, hrun, h1] at hsurv
  · by_cases h2 : newHead s ∈ s.snake
    · simp [tickState, hrun, h1, h2] at hsurv
    · constructor
      · intro h3
        rw [h3] at h1 h2
        simp [tickState, hrun, h1, h2, h3]
      · intro h3
        simp [tickState, hrun, h1, h2, h3, List.length_dropLast]

/-- Witness for C3 at a state whose fruit is directly ahead of the head. -/
theorem claim_C3_witness :
    (newHead sEat = sEat.fruit →
      (tickState ⟨3, 3⟩ sEat).snake.length = sEat.snake.length + 1 ∧
      (tickState ⟨3, 3⟩ sEat).score = sEat.score + 10 ∧
      (tickState ⟨3, 3⟩ sEat).fruit = ⟨3, 3⟩) ∧
    (newHead sEat ≠ sEat.fruit →
      (tickState ⟨3, 3⟩ sEat).snake.length = sEat.snake.length ∧
      (tickState ⟨3, 3⟩ sEat).score = sEat.score) :=
  claim_C3 sEat ⟨3, 3⟩ (by decide) (by decide)

/-- Claim C4: set_direction keeps the stored direction when the requested
direction is the exact opposite of the current one, and stores the
requested direction when it equals the current one or is perpendicular
to it. -/
theorem claim_C4 (s : GameState) (d : Direction) :
    (d = opposite s.direction →
      (setDirectionState d s).direction = s.direction) ∧
    ((d = s.direction ∨ perpendicular d s.direction) →
      (setDirectionState d s).direction = d) := by
  cases hs : s.direction <;> cases d <;>
    simp [setDirectionState, opposite, perpendicular, isVertical, hs]

/-- Witness for C4: from the fresh state (heading RIGHT), LEFT is rejected
and UP is accepted. -/
theorem claim_C4_witness :
    (setDirectionState Direction.LEFT (freshState 0)).direction
        = (freshState 0).direction ∧
    (setDirectionState Direction.UP (freshState 0)).direction = Direction.UP :=
  ⟨(claim_C4 (freshState 0) Direction.LEFT).1 (by decide),
   (claim_C4 (freshState 0) Direction.UP).2 (Or.inr (by decide))⟩

/-- Claim C6: reset_game yields a running state with score 0, the fixed
3-segment starting snake, the fixed starting direction and fruit, and the
high score of the previous state. -/
theorem claim_C6 (s : GameState) :
    (resetState s).game_over = false ∧
    (resetState s).score = 0 ∧
    (resetState s).snake = [⟨10, 10⟩, ⟨9, 10⟩, ⟨8, 10⟩] ∧
    (resetState s).direction = Direction.RIGHT ∧
    (resetState s).fruit = ⟨15, 15⟩ ∧
    (resetState s).high_score = s.high_score := by
  simp [resetState, freshState]

/-- The ten-tick state is reachable from a fresh start. -/
theorem reachable_state10 : Reachable state10 := by
  unfold state10 state9 tick0
  apply Reachable.tick
  apply Reachable.tick
  apply Reachable.tick
  apply Reachable.tick
  apply Reachable.tick
  apply Reachable.tick
  apply Reachable.tick
  apply Reachable.tick
  apply Reachable.tick
  apply Reachable.tick
  exact Reachable.init 0

/-- Claim C5: at the tick that ends a running game, the high score becomes
the score when the score exceeds it and is unchanged otherwise (the score
itself is untouched); hence every reachable terminal state satisfies
high_score at least score. -/
theorem claim_C5 :
    (∀ (s : GameState) (f : Position), s.game_over = false →
      (tickState f s).game_over = true →
      (tickState f s).high_score
          = (if s.score > s.high_score then s.score else s.high_score) ∧
      (tickState f s).score = s.score) ∧
    (∀ s : GameState, Reachable s → s.game_over = true →
      s.score ≤ s.high_score) := by
  constructor
  · intro s f hrun hover
    by_cases h1 : outOfBounds (newHead s)
    · simp [tickState, hrun, h1]
    · by_cases h2 : newHead s ∈ s.snake
      · simp [tickState, hrun, h1, h2]
      · by_cases h3 : newHead s = s.fruit
        · rw [h3] at h1 h2
          simp [tickState, hrun, h1, h2, h3] at hover
        · simp [tickState, hrun, h1, h2, h3] at hover
  · intro s hr
    induction hr with
    | init h => simp [freshState]
    | tick f s hs ih =>
      cases hgo : s.game_over with
      | true =>
        have hid : tickState f s = s := by simp [tickState, hgo]
        rw [hid]
        exact ih
      | false =>
        intro hover
        by_cases h1 : outOfBounds (newHead s)
        · simp [tickState, hgo, h1]
          split <;> omega
        · by_cases h2 : newHead s ∈ s.snake
          · simp [tickState, hgo, h1, h2]
            split <;> omega
          · by_cases h3 : newHead s = s.fruit
            · rw [h3] at h1 h2
              simp [tickState, hgo, h1, h2, h3] at hover
            · simp [tickState, hgo, h1, h2, h3] at hover
    | setDir d s hs ih =>
      by_cases hop : s.direction ≠ opposite d
      · simpa [setDirectionState, hop] using ih
      · simpa [setDirectionState, hop] using ih
    | reset s hs ih =>
      intro hover
      simp [resetState, freshState] at hover

/-- Witness for C5: after nine ticks from a fresh start the snake faces the
right wall; the tenth tick ends the game and folds the score, and the
resulting reachable terminal state satisfies the inequality. -/
theorem claim_C5_witness :
    ((tickState ⟨0, 0⟩ state9).high_score
        = (if state9.score > state9.high_score then state9.score
           else state9.high_score) ∧
      (tickState ⟨0, 0⟩ state9).score = state9.score) ∧
    state10.score ≤ state10.high_score :=
  ⟨claim_C5.1 state9 ⟨0, 0⟩ (by decide) (by decide),
   claim_C5.2 state10 reachable_state10 (by decide)⟩

/-- Claim C10: every reachable state keeps score equal to ten times the
number of segments beyond the initial three, so the snake never has fewer
than three segments and the score is a non-negative multiple of ten. -/
theorem claim_C10 (s : GameState) (hr : Reachable s) :
    s.score = 10 * ((s.snake.length : Int) - 3) ∧ 3 ≤ s.snake.length := by
  induction hr with
  | init h => simp [freshState]
  | tick f s hs ih =>
    cases hgo : s.game_over with
    | true =>
      have hid : tickState f s = s := by simp [tickState, hgo]
      rw [hid]
      exact ih
    | false =>
      by_cases h1 : outOfBounds (newHead s)
      · simpa [tickState, hgo, h1] using ih
      · by_cases h2 : newHead s ∈ s.snake
        · simpa [tickState, hgo, h1, h2] using ih
        · by_cases h3 : newHead s = s.fruit
          · rw [h3] at h1 h2
            simp [tickState, hgo, h1, h2, h3]
            obtain ⟨ih1, ih2⟩ := ih
            constructor
            · rw [ih1]
              ring
            · omega
          · simpa [tickState, hgo, h1, h2, h3, List.length_dropLast] using ih
  | setDir d s hs ih =>
    by_cases hop : s.direction ≠ opposite d
    · simpa [setDirectionState, hop] using ih
    · simpa [setDirectionState, hop] using ih
  | reset s hs ih => simp [resetState, freshState]

/-- Witness for C10 at the fresh starting state. -/
theorem claim_C10_witness :
    (freshState 0).score = 10 * (((freshState 0).snake.length : Int) - 3) ∧
    3 ≤ (freshState 0).snake.length :=
  claim_C10 (freshState 0) (Reachable.init 0)

/-- Counterexample to claim C1: set_direction accepts a perpendicular
direction, changing the game state, yet makes no observer call and writes
no snapshot — the source mutates the direction without persisting or
notifying. -/
theorem claim_C1_cex :
    (setDirectionE Direction.UP engC1).1.state ≠ engC1.state ∧
    (setDirectionE Direction.UP engC1).2.1 = [] ∧
    (setDirectionE Direction.UP engC1).1.db = engC1.db :=
  ⟨by decide, rfl, rfl⟩

/-- Claim C1 as amended: tick (from a running state) and reset_game each
trigger exactly one notification round per call — one call per registered
observer, every call handed the state that was just appended to the
store — while set_direction changes the state without any notification or
persistence. -/
theorem claim_C1_amended :
    (∀ (e : Engine) (f : Position), e.state.game_over = false →
      (tickE f e).2.1
          = e.observers.map (fun o => (o, (tickE f e).1.state)) ∧
      (tickE f e).1.db = e.db ++ [(tickE f e).1.state]) ∧
    (∀ e : Engine,
      (resetE e).2.1
          = e.observers.map (fun o => (o, (resetE e).1.state)) ∧
      (resetE e).1.db = e.db ++ [(resetE e).1.state]) ∧
    (∀ (e : Engine) (d : Direction),
      (setDirectionE d e).2.1 = [] ∧ (setDirectionE d e).1.db = e.db) := by
  refine ⟨?_, ?_, ?_⟩
  · intro e f hrun
    simp [tickE, hrun, saveState, notifyObservers_calls]
  · intro e
    simp [resetE, saveState, notifyObservers_calls]
  · intro e d
    exact ⟨rfl, rfl⟩

/-- Witness for the amended C1 on a concrete fresh engine. -/
theorem claim_C1_witness :
    (tickE ⟨0, 0⟩ engC1).2.1
        = engC1.observers.map (fun o => (o, (tickE ⟨0, 0⟩ engC1).1.state)) ∧
    (tickE ⟨0, 0⟩ engC1).1.db = engC1.db ++ [(tickE ⟨0, 0⟩ engC1).1.state] :=
  claim_C1_amended.1 engC1 ⟨0, 0⟩ (by decide)

/-- Counterexample to claim C7: on a stored row whose direction column is
corrupt, construction raises (the decoding error propagates out of
`_load_or_create_state`) instead of falling back to the fresh state with
high score 0. -/
theorem claim_C7_cex :
    loadOrCreateState (some corruptRow)
        = Except.error "invalid direction value" ∧
    loadOrCreateState (some corruptRow) ≠ Except.ok (freshState 0) := by
  constructor
  · rfl
  · intro h
    rw [show loadOrCreateState (some corruptRow)
          = Except.error "invalid direction value" from rfl] at h
    exact Except.noConfusion h

/-- Claim C7 as amended: an empty store yields the fresh state with high
score 0; a row decoding to a running state is resumed as-is; a row
decoding to a terminal state yields the fresh state carrying that row's
high score; a row that fails to decode makes construction fail with that
error rather than falling back. -/
theorem claim_C7_amended :
    loadOrCreateState none = Except.ok (freshState 0) ∧
    (∀ (r : Row) (st : GameState), rowToState r = Except.ok st →
      loadOrCreateState (some r)
        = Except.ok (if st.game_over = false then st
                     else freshState st.high_score)) ∧
    (∀ (r : Row) (msg : String), rowToState r = Except.error msg →
      loadOrCreateState (some r) = Except.error msg) := by
  refine ⟨rfl, ?_, ?_⟩
  · intro r st h
    cases hgo : st.game_over <;>
      simp [loadOrCreateState, getLatestState, bind, Except.bind, h, hgo]
  · intro r msg h
    simp [loadOrCreateState, getLatestState, bind, Except.bind, h]

/-- Witness for the amended C7 on three concrete rows: a running snapshot,
a terminal snapshot, and a corrupt one. -/
theorem claim_C7_witness :
    loadOrCreateState (some goodRow)
        = Except.ok (if goodState.game_over = false then goodState
                     else freshState goodState.high_score) ∧
    loadOrCreateState (some termRow)
        = Except.ok (if termState.game_over = false then termState
                     else freshState termState.high_score) ∧
    loadOrCreateState (some corruptRow)
        = Except.error "invalid direction value" :=
  ⟨claim_C7_amended.2.1 goodRow goodState rfl,
   claim_C7_amended.2.1 termRow termState rfl,
   claim_C7_amended.2.2 corruptRow "invalid direction value" rfl⟩

/-- Claim C8: a failing observer changes nothing observable by the others
or by the engine — one notification round always calls every registered
observer in order with the same state (the loop catches the error and
continues), and the state and store after tick, reset_game or
set_direction are identical to what they would be with no observer
failing. -/
theorem claim_C8 :
    (∀ (obs : List Obs) (s : GameState),
      (notifyObservers obs s).1 = obs.map (fun o => (o, s))) ∧
    (∀ (e : Engine) (f : Position),
      (tickE f { e with observers := e.observers.map clearFails }).1.state
          = (tickE f e).1.state ∧
      (tickE f { e with observers := e.observers.map clearFails }).1.db
          = (tickE f e).1.db) ∧
    (∀ e : Engine,
      (resetE { e with observers := e.observers.map clearFails }).1.state
          = (resetE e).1.state ∧
      (resetE { e with observers := e.observers.map clearFails }).1.db
          = (resetE e).1.db) ∧
    (∀ (e : Engine) (d : Direction),
      (setDirectionE d { e with observers := e.observers.map clearFails }).1.state
          = (setDirectionE d e).1.state) := by
  refine ⟨notifyObservers_calls, ?_, ?_, ?_⟩
  · intro e f
    cases hgo : e.state.game_over <;> simp [tickE, hgo]
  · intro e
    simp [resetE]
  · intro e d
    simp [setDirectionE]

/-- Counting an observer's calls in one notification round counts its
occurrences in the registry. -/
theorem count_notify_calls (obs : List Obs) (o : Obs) (s : GameState) :
    (obs.map (fun x => (x, s))).count (o, s) = obs.count o := by
  induction obs with
  | nil => rfl
  | cons a rest ih =>
    by_cases h : a = o <;>
      simp [List.count_cons, h, ih]

/-- Claim C9: the registry never holds an observer twice — subscribing a
registered observer is a no-op and subscribing preserves distinctness;
unsubscribing removes exactly the first matching entry; a tick from a
running state calls each registered observer exactly once with the
resulting state, and after unsubscribing one observer a tick calls each
remaining observer exactly once and the removed one not at all. -/
theorem claim_C9 :
    (∀ (obs : List Obs) (o : Obs), o ∈ obs → subscribe obs o = obs) ∧
    (∀ (obs : List Obs) (o : Obs), obs.Nodup → (subscribe obs o).Nodup) ∧
    (∀ (obs : List Obs) (o : Obs), unsubscribe obs o = obs.erase o) ∧
    (∀ (e : Engine) (f : Position) (o : Obs),
      e.observers.Nodup → o ∈ e.observers → e.state.game_over = false →
      ((tickE f e).2.1.count (o, (tickE f e).1.state)) = 1) ∧
    (∀ (e : Engine) (f : Position) (o o2 : Obs),
      e.observers.Nodup → o2 ∈ e.observers → o2 ≠ o →
      e.state.game_over = false →
      ((tickE f { e with observers := unsubscribe e.observers o }).2.1.count
          (o2, (tickE f { e with observers := unsubscribe e.observers o }).1.state)) = 1 ∧
      ((tickE f { e with observers := unsubscribe e.observers o }).2.1.count
          (o, (tickE f { e with observers := unsubscribe e.observers o }).1.state)) = 0) := by
  refine ⟨?_, ?_, ?_, ?_, ?_⟩
  · intro obs o h
    simp [subscribe, h]
  · intro obs o hnd
    by_cases h : o ∈ obs
    · simpa [subscribe, h] using hnd
    · rw [subscribe, if_neg h, List.nodup_append]
      exact ⟨hnd, List.nodup_singleton o,
        fun a ha hb => h ((List.mem_singleton.mp hb) ▸ ha)⟩
  · intro obs o
    by_cases h : o ∈ obs
    · simp [unsubscribe, h]
    · simp [unsubscribe, h, List.erase_of_not_mem h]
  · intro e f o hnd hmem hrun
    simp [tickE, hrun, notifyObservers_calls]
    rw [count_notify_calls]
    exact List.count_eq_one_of_mem hnd hmem
  · intro e f o o2 hnd hmem hne hrun
    by_cases ho : o ∈ e.observers
    · have hnd' : (e.observers.erase o).Nodup := hnd.erase o
      have hmem' : o2 ∈ e.observers.erase o :=
        (List.mem_erase_of_ne hne).mpr hmem
      have hno : o ∉ e.observers.erase o := hnd.not_mem_erase
      constructor
      · simp [tickE, hrun, notifyObservers_calls, unsubscribe, ho]
        rw [count_notify_calls]
        exact List.count_eq_one_of_mem hnd' hmem'
      · simp [tickE, hrun, notifyObservers_calls, unsubscribe, ho]
        rw [count_notify_calls]
        exact List.count_eq_zero.mpr hno
    · constructor
      · simp [tickE, hrun, notifyObservers_calls, unsubscribe, ho]
        rw [count_notify_calls]
        exact List.count_eq_one_of_mem hnd hmem
      · simp [tickE, hrun, notifyObservers_calls, unsubscribe, ho]
        rw [count_notify_calls]
        exact List.count_eq_zero.mpr ho

/-- Witness for C9 on a concrete two-observer engine: subscribe is
idempotent on a registered observer, subscribing keeps distinctness,
unsubscribe is the first-match erase, a tick calls a registered observer
once, and after removing the failing observer a tick calls the remaining
one once and the removed one never. -/
theorem claim_C9_witness :
    subscribe [⟨1, false⟩, ⟨2, true⟩] ⟨1, false⟩ = [⟨1, false⟩, ⟨2, true⟩] ∧
    (subscribe [⟨1, false⟩, ⟨2, true⟩] ⟨3, false⟩).Nodup ∧
    unsubscribe [⟨1, false⟩, ⟨2, true⟩] ⟨2, true⟩
        = List.erase [⟨1, false⟩, ⟨2, true⟩] ⟨2, true⟩ ∧
    ((tickE ⟨0, 0⟩ engC9).2.1.count
        (⟨1, false⟩, (tickE ⟨0, 0⟩ engC9).1.state)) = 1 ∧
    ((tickE ⟨0, 0⟩ { engC9 with
        observers := unsubscribe engC9.observers ⟨2, true⟩ }).2.1.count
        (⟨1, false⟩, (tickE ⟨0, 0⟩ { engC9 with
          observers := unsubscribe engC9.observers ⟨2, true⟩ }).1.state)) = 1 ∧
    ((tickE ⟨0, 0⟩ { engC9 with
        observers := unsubscribe engC9.observers ⟨2, true⟩ }).2.1.count
        (⟨2, true⟩, (tickE ⟨0, 0⟩ { engC9 with
          observers := unsubscribe engC9.observers ⟨2, true⟩ }).1.state)) = 0 := by
  refine ⟨claim_C9.1 _ ⟨1, false⟩ (by decide),
    claim_C9.2.1 _ ⟨3, false⟩ (by decide),
    claim_C9.2.2.1 _ ⟨2, true⟩,
    claim_C9.2.2.2.1 engC9 ⟨0, 0⟩ ⟨1, false⟩ (by decide) (by decide) (by decide),
    (claim_C9.2.2.2.2 engC9 ⟨0, 0⟩ ⟨2, true⟩ ⟨1, false⟩
      (by decide) (by decide) (by decide) (by decide)).1,
    (claim_C9.2.2.2.2 engC9 ⟨0, 0⟩ ⟨2, true⟩ ⟨1, false⟩
      (by decide) (by decide) (by decide) (by decide)).2⟩

end SnakeGame
